import Mathlib

/-!
# Verification of the claude-run session index and notification subsystem

A shallow embedding of the server's storage, watcher and stream-handler
logic, together with the client-side session view (SessionView), and
proofs of the behavioural claims about them.

The HTTP server (`server.ts`) and the session view component are embedded
from their sources. The `storage.ts` and `watcher.ts` modules are not part
of the available sources; the definitions taken from them are modelled
from the specification and are marked as such in their doc comments.
-/

namespace ClaudeRun

/-- A decoded log record (`ConversationMessage`): a uuid (possibly the
empty string when absent), a type tag and an opaque content payload. -/
structure Record where
  uuid : String
  type : String
  content : String
  deriving DecidableEq, Repr

/-- Modelled from the spec: the File Index of `storage.ts` is a mapping
from session identifier to source file path, updated incrementally.
Represented as an association list; lookup returns the first binding. -/
abbrev FileIndex := List (String × String)

/-- First binding for a session id in the File Index, if any. -/
def FileIndex.lookup (idx : FileIndex) (sessionId : String) : Option String :=
  match idx with
  | [] => none
  | (s, p) :: rest => if s = sessionId then some p else FileIndex.lookup rest sessionId

/-- Modelled from the spec: `add(sessionId, filePath)` of the File Index
(`storage.ts` is missing) "registers or overwrites a single entry"; the
new binding replaces any binding for the same session id. -/
def addToFileIndex (idx : FileIndex) (sessionId filePath : String) : FileIndex :=
  (sessionId, filePath) :: idx.filter (fun e => e.1 ≠ sessionId)

/-- Modelled from the spec: the storage state of `storage.ts` — the File
Index plus, for each file path, the sequence of fully terminated records
currently decodable from that file. -/
structure Storage where
  fileIndex : FileIndex
  fileRecords : String → List Record

/-- Modelled from the spec: the Log Reader's `readFrom(filePath, offset)`
(`storage.ts` is missing). It returns the records strictly after `offset`
and the offset of the last fully consumed record; reading at or beyond
end-of-file returns an empty sequence and the unchanged offset. -/
def readFrom (records : List Record) (offset : Nat) : List Record × Nat :=
  (records.drop offset, max offset records.length)

/-- Modelled from the spec: `getConversationStream(sessionId, offset)` of
`storage.ts` — the incremental read. A session id absent from the File
Index yields an empty result with the caller's offset unchanged. -/
def getConversationStream (st : Storage) (sessionId : String) (offset : Nat) :
    List Record × Nat :=
  match st.fileIndex.lookup sessionId with
  | none => ([], offset)
  | some path => readFrom (st.fileRecords path) offset

/-- Modelled from the spec: `getConversation(sessionId)` of `storage.ts`.
It may fail on I/O, but a session id absent from the File Index is
treated as "removed between discovery and read" and returns an empty
list, not an error. -/
def getConversation (st : Storage) (sessionId : String) :
    Except String (List Record) :=
  match st.fileIndex.lookup sessionId with
  | none => Except.ok []
  | some path => Except.ok (st.fileRecords path)

/-! ## Change Detector (watcher) -/

/-- A raw filesystem event observed by the Change Detector. Create,
delete and rename events are index-level; a modify event carries the
affected session id and file path. -/
inductive FsEvent where
  | create (path : String)
  | delete (path : String)
  | rename (path : String)
  | modify (sessionId : String) (path : String)
  deriving DecidableEq, Repr

/-- Whether an event implies an index-level change. -/
def FsEvent.isIndexLevel : FsEvent → Bool
  | .create _ => true
  | .delete _ => true
  | .rename _ => true
  | .modify _ _ => false

/-- The session id of a content-modify event. -/
def FsEvent.modifiedSession : FsEvent → Option (String × String)
  | .modify s p => some (s, p)
  | _ => none

/-- Modelled from the spec: the Change Detector's settle step
(`watcher.ts` is missing). A settled debounce batch yields the number of
index-change notifications (one iff any event in the batch is
index-level, regardless of how many there are) and one session-level
notification per distinct affected session id of the modify events. -/
def settleBatch (batch : List FsEvent) : Nat × List (String × String) :=
  (if batch.any FsEvent.isIndexLevel then 1 else 0,
   (batch.filterMap FsEvent.modifiedSession).dedup)

/-! ## History Cache -/

/-- A point-in-time sessions/projects listing served by the History
Cache; its contents are opaque to the claims below. -/
structure Listing where
  sessions : List (String × Nat)
  projects : List String
  deriving DecidableEq, Repr

/-- Modelled from the spec: the History Cache of `storage.ts` — the
memoized listing tagged valid/stale, instrumented with a count of how
many times the listing has been recomputed from the File Index. -/
structure HistoryCache where
  valid : Bool
  data : Listing
  computeCount : Nat
  deriving DecidableEq, Repr

/-- Modelled from the spec: `invalidateHistoryCache()` of `storage.ts`
marks the cache stale; it does not synchronously recompute. -/
def invalidateHistoryCache (c : HistoryCache) : HistoryCache :=
  { c with valid := false }

/-- Modelled from the spec: the History Cache's `list()` — return the
memoized listing if valid, else recompute it from the File Index
(`compute` is the recomputation, counted by `computeCount`). -/
def listHistory (compute : Unit → Listing) (c : HistoryCache) :
    Listing × HistoryCache :=
  if c.valid then (c.data, c)
  else
    let l := compute ()
    (l, { valid := true, data := l, computeCount := c.computeCount + 1 })

/-- The index-change subscriber the server registers at startup
(`server.ts`): `onHistoryChange(() => invalidateHistoryCache())`. -/
def serverHistoryChangeHandler (c : HistoryCache) : HistoryCache :=
  invalidateHistoryCache c

/-- The session-change subscriber the server registers at startup
(`server.ts`): `onSessionChange((sessionId, filePath) =>
addToFileIndex(sessionId, filePath))`. -/
def serverSessionChangeHandler (idx : FileIndex)
    (sessionId filePath : String) : FileIndex :=
  addToFileIndex idx sessionId filePath

/-! ## Subscriber Registry -/

/-- Modelled from the spec: removal of a callback from one channel of the
Subscriber Registry (`watcher.ts` is missing) — `offHistoryChange` /
`offSessionChange` remove the given callback, identified here by an
opaque handle. -/
def offCallback (registry : List Nat) (cb : Nat) : List Nat :=
  registry.filter (fun x => x ≠ cb)

/-! ## Sessions stream consumer (`/api/sessions/stream` in `server.ts`) -/

/-- The state of one sessions-stream consumer: whether the SSE connection
is still up, whether its `handleHistoryChange` callback is still in the
registry, and the `knownSessions` map from session id to last seen
timestamp. -/
structure SessionsStream where
  isConnected : Bool
  subscribed : Bool
  knownSessions : List (String × Nat)
  deriving DecidableEq, Repr

/-- First timestamp bound to a session id in a `knownSessions` map. -/
def lookupTimestamp : List (String × Nat) → String → Option Nat
  | [], _ => none
  | (s, t) :: rest, id => if s = id then some t else lookupTimestamp rest id

/-- `Map.set`: replace the binding for `id` if present, else append it. -/
def setTimestamp (m : List (String × Nat)) (id : String) (t : Nat) :
    List (String × Nat) :=
  if m.any (fun e => e.1 = id) then
    m.map (fun e => if e.1 = id then (id, t) else e)
  else m ++ [(id, t)]

/-- The sessions stream's `cleanup`: mark the connection closed and
deregister `handleHistoryChange` from the registry
(`offHistoryChange(handleHistoryChange)`). -/
def SessionsStream.cleanup (st : SessionsStream) : SessionsStream :=
  { st with isConnected := false, subscribed := false }

/-- The sessions stream's `handleHistoryChange` from `server.ts`: if the
consumer is disconnected, do nothing; otherwise fetch the sessions
listing, compute the sessions that are new or whose timestamp changed
against `knownSessions`, record all current timestamps, and emit one
`sessionsUpdate` SSE write when that set is non-empty. The whole body is
wrapped in try/catch: if anything throws (`throws`), `cleanup` runs and
no write is emitted. Returns the new consumer state and the list of SSE
writes performed. -/
def handleHistoryChange (sessions : List (String × Nat)) (throws : Bool)
    (st : SessionsStream) : SessionsStream × List (List (String × Nat)) :=
  if st.isConnected = false then (st, [])
  else if throws then (st.cleanup, [])
  else
    let newOrUpdated := sessions.filter (fun s =>
      match lookupTimestamp st.knownSessions s.1 with
      | none => true
      | some t => t ≠ s.2)
    let known := sessions.foldl (fun m s => setTimestamp m s.1 s.2) st.knownSessions
    ({ st with knownSessions := known },
     if newOrUpdated.isEmpty then [] else [newOrUpdated])

/-- Modelled from the spec: the Subscriber Registry's fan-out of one
index-change notification to a list of sessions-stream consumers
(`watcher.ts` is missing): each registered callback is invoked in turn,
a subscriber's failure (`throws`) being handled inside its own callback. -/
def emitHistoryChange (sessions : List (String × Nat)) :
    List (Bool × SessionsStream) → List (SessionsStream × List (List (String × Nat)))
  | [] => []
  | c :: rest =>
      handleHistoryChange sessions c.1 c.2 :: emitHistoryChange sessions rest

/-! ## Conversation stream consumer (`/api/conversation/:id/stream`) -/

/-- The state of one conversation-stream consumer: connection flag,
registry membership of its `handleSessionChange` callback, and the
consumer's current read offset into the session's log. -/
structure ConversationStream where
  isConnected : Bool
  subscribed : Bool
  offset : Nat
  deriving DecidableEq, Repr

/-- The conversation stream's `cleanup`: mark the connection closed and
deregister `handleSessionChange` (`offSessionChange(handleSessionChange)`). -/
def ConversationStream.cleanup (st : ConversationStream) : ConversationStream :=
  { st with isConnected := false, subscribed := false }

/-- The conversation stream's `handleSessionChange` from `server.ts`: on
a session-change notification for `changedSessionId`, return immediately
when the id differs from the stream's own `sessionId` or the consumer is
disconnected; otherwise perform an incremental read from the stored
offset, store the new offset, and when new messages exist write one SSE
`messages` event (a failing write, `writeFails`, triggers `cleanup`).
Returns the new state, the SSE writes performed, and whether an
incremental read was performed. -/
def handleSessionChange (sessionId : String) (storage : Storage)
    (writeFails : Bool) (st : ConversationStream) (changedSessionId : String) :
    ConversationStream × List (List Record) × Bool :=
  if changedSessionId ≠ sessionId ∨ st.isConnected = false then (st, [], false)
  else
    let res := getConversationStream storage sessionId st.offset
    let st' := { st with offset := res.2 }
    if res.1.isEmpty then (st', [], true)
    else if writeFails then (st'.cleanup, [], true)
    else (st', [res.1], true)

/-! ## Session view (client, `session-view.tsx`) -/

def MAX_RETRIES : Nat := 10
def BASE_RETRY_DELAY_MS : Nat := 1000
def MAX_RETRY_DELAY_MS : Nat := 30000

/-- The client-side state of `SessionView` that the `messages` event
handler touches: the displayed message list and the value of
`offsetRef.current`. -/
structure SessionViewState where
  messages : List Record
  offset : Nat
  deriving DecidableEq, Repr

/-- The `messages` event listener of `SessionView`: collect the non-empty
uuids of the displayed messages (`filter(Boolean)` drops the empty
string), keep only the incoming messages whose uuid is not among them,
and when any remain append them and advance `offsetRef.current` by how
many were appended. -/
def handleMessagesEvent (st : SessionViewState) (incoming : List Record) :
    SessionViewState :=
  let existingIds := (st.messages.map Record.uuid).filter (fun u => u ≠ "")
  let unique := incoming.filter (fun m => !(existingIds.contains m.uuid))
  if unique.isEmpty then st
  else { messages := st.messages ++ unique, offset := st.offset + unique.length }

/-- The `messages` event listener together with its first statement
`retryCountRef.current = 0`: the retry counter is reset on every
successfully received `messages` event. -/
def messagesEvent (st : SessionViewState × Nat) (incoming : List Record) :
    SessionViewState × Nat :=
  (handleMessagesEvent st.1 incoming, 0)

/-- The `eventSource.onerror` handler of `SessionView` as it acts on
`retryCountRef.current`: when fewer than `MAX_RETRIES` consecutive
retries have happened, compute the exponential-backoff delay, increment
the counter and schedule a reconnect after that delay (`some (delay,
newCount)`); otherwise give up (`none`). -/
def eventSourceOnError (retryCount : Nat) : Option (Nat × Nat) :=
  if retryCount < MAX_RETRIES then
    some (min (BASE_RETRY_DELAY_MS * 2 ^ retryCount) MAX_RETRY_DELAY_MS,
          retryCount + 1)
  else none

/-- The sequence of reconnect delays produced by a run of consecutive
errors starting from retry counter `k`, with enough `fuel`. -/
def retrySchedule : Nat → Nat → List Nat
  | 0, _ => []
  | fuel + 1, k =>
      match eventSourceOnError k with
      | none => []
      | some (d, k') => d :: retrySchedule fuel k'

/-! ## Theorems -/

/-- C1: for every settled debounce batch of filesystem events, if the
batch contains N ≥ 1 index-level events (create/delete/rename), exactly
one index-change notification is emitted for that batch, regardless of N. -/
theorem settleBatch_one_index_notification (batch : List FsEvent)
    (h : 1 ≤ (batch.countP (fun e => e.isIndexLevel))) :
    (settleBatch batch).1 = 1 := by
  have hany : batch.any FsEvent.isIndexLevel = true := by
    rw [List.any_eq_true]
    exact List.countP_pos_iff.mp h
  simp [settleBatch, hany]

/-- Witness for C1: a batch with two index-level events and two modify
events produces exactly one index-change notification. -/
theorem settleBatch_one_index_notification_witness :
    1 ≤ ([FsEvent.create "a", FsEvent.rename "b",
          FsEvent.modify "s" "p", FsEvent.modify "s" "q"].countP
            (fun e => e.isIndexLevel)) ∧
    (settleBatch [FsEvent.create "a", FsEvent.rename "b",
        FsEvent.modify "s" "p", FsEvent.modify "s" "q"]).1 = 1 :=
  ⟨by decide,
   settleBatch_one_index_notification _ (by decide)⟩

/-- C2: for every session and every offset at or beyond the current end
of its unchanged log file, the incremental reader returns an empty record
sequence and an unchanged offset; in particular, calling it twice with
the same offset on an unchanged file returns an empty record set both
times. -/
theorem getConversationStream_past_eof_empty (st : Storage)
    (sid path : String) (offset : Nat)
    (hp : st.fileIndex.lookup sid = some path)
    (hlen : (st.fileRecords path).length ≤ offset) :
    getConversationStream st sid offset = ([], offset) ∧
    getConversationStream st sid
        (getConversationStream st sid offset).2 = ([], offset) := by
  have h1 : getConversationStream st sid offset = ([], offset) := by
    simp [getConversationStream, hp, readFrom,
      List.drop_eq_nil_of_le hlen, Nat.max_eq_left hlen]
  refine ⟨h1, ?_⟩
  rw [h1]
  exact h1

/-- Witness for C2: on a one-record file, reading at offset 5 returns no
records and offset 5, twice. -/
theorem getConversationStream_past_eof_empty_witness :
    (Storage.mk [("s1", "f1")] (fun _ => [⟨"u", "user", "c"⟩])).fileIndex.lookup
        "s1" = some "f1" ∧
    ((Storage.mk [("s1", "f1")]
        (fun _ => [⟨"u", "user", "c"⟩])).fileRecords "f1").length ≤ 5 ∧
    getConversationStream
        (Storage.mk [("s1", "f1")] (fun _ => [⟨"u", "user", "c"⟩])) "s1" 5 =
      ([], 5) :=
  ⟨by decide, by decide,
   (getConversationStream_past_eof_empty _ "s1" "f1" 5 (by decide) (by decide)).1⟩

/-- C3: for every session identifier not present in the File Index,
`getConversation` returns an empty result (not an error), and the
incremental read returns an empty result with the caller's offset
unchanged. -/
theorem getConversation_missing_session_empty (st : Storage) (sid : String)
    (offset : Nat) (h : st.fileIndex.lookup sid = none) :
    getConversation st sid = Except.ok [] ∧
    getConversationStream st sid offset = ([], offset) := by
  constructor <;> simp [getConversation, getConversationStream, h]

/-- Witness for C3: an id absent from a concrete index yields `ok []`
from `getConversation`. -/
theorem getConversation_missing_session_empty_witness :
    (Storage.mk [("s1", "f1")] (fun _ => [])).fileIndex.lookup "zz" = none ∧
    getConversation (Storage.mk [("s1", "f1")] (fun _ => [])) "zz" =
      Except.ok [] :=
  ⟨by decide,
   (getConversation_missing_session_empty _ "zz" 0 (by decide)).1⟩

/-- C4: a conversation stream opened on session `sessionId` ignores every
session-change notification carrying a different id `changedSessionId`:
no incremental read happens, no SSE message is written, and the stream's
state (in particular its stored offset) is unchanged. -/
theorem handleSessionChange_other_session_noop
    (sessionId changedSessionId : String) (storage : Storage)
    (writeFails : Bool) (st : ConversationStream)
    (h : changedSessionId ≠ sessionId) :
    handleSessionChange sessionId storage writeFails st changedSessionId =
      (st, [], false) := by
  simp [handleSessionChange, h]

/-- Witness for C4: a notification for session "x" leaves a stream on
session "y" untouched. -/
theorem handleSessionChange_other_session_noop_witness :
    ("x" : String) ≠ "y" ∧
    handleSessionChange "y" (Storage.mk [("y", "f")] (fun _ => [⟨"u", "user", "c"⟩]))
        false (ConversationStream.mk true true 0) "x" =
      (ConversationStream.mk true true 0, [], false) :=
  ⟨by decide,
   handleSessionChange_other_session_noop "y" "x" _ false _ (by decide)⟩

/-- C5: once a stream consumer's `cleanup` has run (connection aborted),
its callback is deregistered from the Subscriber Registry and every
further notification is ignored: no read, no SSE write, no state change,
for both the sessions stream and the conversation stream; and `off`
removal really removes the callback from the registry. -/
theorem cleanup_unsubscribes_and_stops_delivery :
    (∀ st : ConversationStream,
        st.cleanup.isConnected = false ∧ st.cleanup.subscribed = false) ∧
    (∀ (st : ConversationStream) (sessionId changedSessionId : String)
        (storage : Storage) (writeFails : Bool),
        handleSessionChange sessionId storage writeFails st.cleanup
            changedSessionId = (st.cleanup, [], false)) ∧
    (∀ st : SessionsStream,
        st.cleanup.isConnected = false ∧ st.cleanup.subscribed = false) ∧
    (∀ (st : SessionsStream) (sessions : List (String × Nat)) (throws : Bool),
        handleHistoryChange sessions throws st.cleanup = (st.cleanup, [])) ∧
    (∀ (registry : List Nat) (cb : Nat), cb ∉ offCallback registry cb) := by
  refine ⟨fun st => ⟨rfl, rfl⟩, ?_, fun st => ⟨rfl, rfl⟩, ?_, ?_⟩
  · intro st sessionId changedSessionId storage writeFails
    simp [handleSessionChange, ConversationStream.cleanup]
  · intro st sessions throws
    simp [handleHistoryChange, SessionsStream.cleanup]
  · intro registry cb
    simp [offCallback, List.mem_filter]

/-- Witness for C5: a cleaned-up conversation stream ignores a matching
notification, and handle 7 is gone after its removal from the registry. -/
theorem cleanup_unsubscribes_and_stops_delivery_witness :
    handleSessionChange "y" (Storage.mk [] (fun _ => [])) false
        (ConversationStream.cleanup (ConversationStream.mk true true 0)) "y" =
      (ConversationStream.cleanup (ConversationStream.mk true true 0), [], false) ∧
    (7 : Nat) ∉ offCallback [7, 3] 7 :=
  ⟨cleanup_unsubscribes_and_stops_delivery.2.1 _ "y" "y" _ false,
   cleanup_unsubscribes_and_stops_delivery.2.2.2.2 [7, 3] 7⟩

/-- Fan-out preserves the subscriber count: every subscriber is
delivered to. -/
theorem emitHistoryChange_length (sessions : List (String × Nat))
    (consumers : List (Bool × SessionsStream)) :
    (emitHistoryChange sessions consumers).length = consumers.length := by
  induction consumers with
  | nil => rfl
  | cons c rest ih => simp [emitHistoryChange, ih]

/-- Each subscriber's delivery result depends only on its own state. -/
theorem emitHistoryChange_getElem? (sessions : List (String × Nat))
    (consumers : List (Bool × SessionsStream)) (i : Nat) :
    (emitHistoryChange sessions consumers)[i]? =
      (consumers[i]?).map (fun c => handleHistoryChange sessions c.1 c.2) := by
  induction consumers generalizing i with
  | nil => simp [emitHistoryChange]
  | cons c rest ih =>
      cases i with
      | zero => simp [emitHistoryChange]
      | succ j => simpa [emitHistoryChange] using ih j

/-- C6: a subscriber callback that raises an error does not prevent
delivery to the other subscribers — the fan-out reaches every subscriber
and each result depends only on that subscriber's own state — and the
raising subscriber performs no SSE write and is removed (its callback
deregistered, its connection marked closed). The fan-out is a total
function, so the error never propagates to the detector loop. -/
theorem subscriber_error_isolated (sessions : List (String × Nat))
    (consumers : List (Bool × SessionsStream)) :
    (emitHistoryChange sessions consumers).length = consumers.length ∧
    (∀ i : Nat, (emitHistoryChange sessions consumers)[i]? =
        (consumers[i]?).map
          (fun c : Bool × SessionsStream => handleHistoryChange sessions c.1 c.2)) ∧
    (∀ st : SessionsStream, st.isConnected = true →
        handleHistoryChange sessions true st = (st.cleanup, []) ∧
        st.cleanup.subscribed = false ∧ st.cleanup.isConnected = false) := by
  refine ⟨emitHistoryChange_length sessions consumers,
    emitHistoryChange_getElem? sessions consumers, ?_⟩
  intro st h
  refine ⟨?_, rfl, rfl⟩
  simp [handleHistoryChange, h]

/-- Witness for C6: a connected, raising subscriber produces no write and
ends up disconnected and deregistered. -/
theorem subscriber_error_isolated_witness :
    (SessionsStream.mk true true []).isConnected = true ∧
    handleHistoryChange [] true (SessionsStream.mk true true []) =
      ((SessionsStream.mk true true []).cleanup, []) :=
  ⟨rfl, ((subscriber_error_isolated [] []).2.2 (SessionsStream.mk true true []) rfl).1⟩

/-- C7: the index-change subscriber installed by the server marks the
History Cache stale via `invalidateHistoryCache` without synchronously
recomputing the listings (data and recompute count untouched);
recomputation happens exactly once at the next listing read, which then
serves the freshly computed listing. -/
theorem index_change_invalidates_without_recompute (c : HistoryCache)
    (compute : Unit → Listing) :
    (serverHistoryChangeHandler c).valid = false ∧
    (serverHistoryChangeHandler c).data = c.data ∧
    (serverHistoryChangeHandler c).computeCount = c.computeCount ∧
    (listHistory compute (serverHistoryChangeHandler c)).2.computeCount =
      c.computeCount + 1 ∧
    (listHistory compute (serverHistoryChangeHandler c)).1 = compute () := by
  refine ⟨rfl, rfl, rfl, ?_, ?_⟩ <;>
    simp [serverHistoryChangeHandler, invalidateHistoryCache, listHistory]

/-- C8: the session-change subscriber installed by the server registers
the notified (sessionId, filePath) pair into the File Index, so the file
becomes indexed without a full rescan, and registration is idempotent:
registering an already-present entry with the same value changes nothing. -/
theorem session_change_registers_file_idempotent (idx : FileIndex)
    (sid path : String) :
    (serverSessionChangeHandler idx sid path).lookup sid = some path ∧
    serverSessionChangeHandler (serverSessionChangeHandler idx sid path)
        sid path = serverSessionChangeHandler idx sid path := by
  constructor
  · simp [serverSessionChangeHandler, addToFileIndex, FileIndex.lookup]
  · simp [serverSessionChangeHandler, addToFileIndex, List.filter_filter]

/-- C9 counterexample: the claim fails on the code. Starting from a
display containing one empty-uuid message, a single batch holding one
more empty-uuid message and two messages sharing the non-empty uuid "a"
is appended wholesale: the empty-uuid message is appended although its
uuid is already present in the displayed list, and the displayed list
ends up containing two messages with the same non-empty uuid "a". -/
theorem handleMessagesEvent_claim_counterexample :
    ((handleMessagesEvent ⟨[⟨"", "user", "p"⟩], 1⟩
        [⟨"", "user", "q"⟩, ⟨"a", "user", "x"⟩, ⟨"a", "user", "y"⟩]).messages.map
      Record.uuid = ["", "", "a", "a"]) ∧
    (((handleMessagesEvent ⟨[⟨"", "user", "p"⟩], 1⟩
        [⟨"", "user", "q"⟩, ⟨"a", "user", "x"⟩, ⟨"a", "user", "y"⟩]).messages.map
      Record.uuid).count "a" = 2) ∧
    ("a" : String) ≠ "" := by
  refine ⟨by decide, by decide, by decide⟩

/-- C9 amended: for every incoming batch, the displayed list is only ever
extended (the previous display is kept as an initial segment); every
appended message either has an empty uuid or a uuid that was not
displayed before the batch (deduplication applies only against
previously displayed non-empty uuids — not within the batch and not to
empty uuids); the client offset grows by exactly the number of appended
messages and is monotonically non-decreasing. -/
theorem handleMessagesEvent_dedup_against_prior (st : SessionViewState)
    (incoming : List Record) :
    (handleMessagesEvent st incoming).messages.take st.messages.length =
      st.messages ∧
    (∀ m ∈ (handleMessagesEvent st incoming).messages.drop st.messages.length,
        m.uuid = "" ∨ m.uuid ∉ st.messages.map Record.uuid) ∧
    (handleMessagesEvent st incoming).offset =
      st.offset +
        ((handleMessagesEvent st incoming).messages.length -
          st.messages.length) ∧
    st.offset ≤ (handleMessagesEvent st incoming).offset := by
  simp only [handleMessagesEvent]
  by_cases hemp :
      (incoming.filter (fun m =>
        !(((st.messages.map Record.uuid).filter (fun u => u ≠ "")).contains
          m.uuid))).isEmpty
  · rw [if_pos hemp]
    refine ⟨List.take_length _, ?_, by simp, Nat.le_refl _⟩
    intro m hm
    rw [List.drop_length] at hm
    exact absurd hm (List.not_mem_nil m)
  · rw [if_neg hemp]
    refine ⟨List.take_left _ _, ?_, ?_, Nat.le_add_right _ _⟩
    · intro m hm
      rw [List.drop_left] at hm
      rcases List.mem_filter.mp hm with ⟨-, hf⟩
      by_cases hmu : m.uuid = ""
      · exact Or.inl hmu
      · refine Or.inr fun hmem => ?_
        have hin : m.uuid ∈
            (st.messages.map Record.uuid).filter (fun u => u ≠ "") :=
          List.mem_filter.mpr ⟨hmem, by simpa using hmu⟩
        have hc : ((st.messages.map Record.uuid).filter
            (fun u => u ≠ "")).contains m.uuid = true :=
          List.elem_eq_true_of_mem hin
        rw [hc] at hf
        simp at hf
    · simp [List.length_append, Nat.add_sub_cancel_left]

/-- Witness for C9 amended: in a concrete batch against a display holding
uuid "a", the appended message with uuid "b" is indeed new. -/
theorem handleMessagesEvent_dedup_against_prior_witness :
    ((⟨"b", "user", "w"⟩ : Record) ∈
      (handleMessagesEvent ⟨[⟨"a", "user", "x"⟩], 1⟩
        [⟨"a", "user", "z"⟩, ⟨"b", "user", "w"⟩]).messages.drop 1) ∧
    (("b" : String) = "" ∨
      ("b" : String) ∉ [(⟨"a", "user", "x"⟩ : Record)].map Record.uuid) :=
  ⟨by decide,
   (handleMessagesEvent_dedup_against_prior ⟨[⟨"a", "user", "x"⟩], 1⟩
      [⟨"a", "user", "z"⟩, ⟨"b", "user", "w"⟩]).2.1 ⟨"b", "user", "w"⟩ (by decide)⟩

/-- C10: after a stream error the k-th consecutive reconnect attempt
(k starting at 0) is scheduled after exactly min(1000·2^k, 30000)
milliseconds, at most 10 consecutive attempts are made (the schedule of
consecutive retries from a fresh counter has exactly these 10 delays and
then stops), and a successfully received `messages` event resets the
retry counter to 0. -/
theorem retry_backoff_schedule :
    (∀ k, k < MAX_RETRIES →
        eventSourceOnError k =
          some (min (BASE_RETRY_DELAY_MS * 2 ^ k) MAX_RETRY_DELAY_MS, k + 1)) ∧
    (∀ k, MAX_RETRIES ≤ k → eventSourceOnError k = none) ∧
    retrySchedule 20 0 =
      [1000, 2000, 4000, 8000, 16000, 30000, 30000, 30000, 30000, 30000] ∧
    (∀ (st : SessionViewState × Nat) (incoming : List Record),
        (messagesEvent st incoming).2 = 0) := by
  refine ⟨?_, ?_, by decide, fun st incoming => rfl⟩
  · intro k hk
    simp [eventSourceOnError, hk]
  · intro k hk
    simp [eventSourceOnError, Nat.not_lt.mpr hk]

/-- Witness for C10: the fourth attempt (k = 3) is scheduled after
min(1000·2³, 30000) = 8000 ms. -/
theorem retry_backoff_schedule_witness :
    3 < MAX_RETRIES ∧
    eventSourceOnError 3 =
      some (min (BASE_RETRY_DELAY_MS * 2 ^ 3) MAX_RETRY_DELAY_MS, 4) :=
  ⟨by decide, retry_backoff_schedule.1 3 (by decide)⟩

end ClaudeRun
